import Mathlib

/-!
# RigMonitor — verification of the synthetic data generator and status classifier

Shallow embedding of `src/main.py` (the RigMonitor dashboard).  The reproducible
core is the function `generate_sensor_data(sensor_type, hours, interval_minutes,
sensor_id)` plus the per-category status classification and the
"current value" aggregation used by the bar-chart callbacks
(`df.groupby('Sensor ID').last()`).

Modelling conventions:
* Real-valued quantities (timestamps in minutes, sensor values) are `ℚ`.
* `datetime.datetime.now()` is an arbitrary parameter `now : ℚ` (minutes).
* `pd.date_range(now - timedelta(hours=hours), now, freq=f'{interval_minutes}min')`
  produces the instants `now - 60*hours + k*interval` for
  `k = 0, …, ⌊60*hours / interval⌋` (start anchored, step `interval` minutes,
  points past `now` excluded).  The generator builds one row per such `k`.
* `np.random.uniform(lo, hi, n)` is modelled by an entropy stream `u : ℕ → ℚ`
  of unit draws (the RNG contract is `0 ≤ u k < 1`, numpy's half-open interval),
  the draw at index `k` being `lo + u k * (hi - lo)`.
* `np.random.choice(['Uniform','Pitting','Galvanic','Crevice'], n)` is modelled
  by an index stream `tg : ℕ → ℕ`, the draw at index `k` selecting entry
  `tg k % 4` of the list.
* A Python run-time failure (here: reading the local variable `sensor_data`
  before assignment, which is what both the `flow_rate` branch and the fall
  through `return sensor_data` of an unrecognized category do) is an
  `Except.error` carrying the offending variable name.
-/

namespace RigMonitor

/-- The five sensor categories the source dispatches on. -/
inductive Category where
  | corrosion
  | pressure
  | temperature
  | acoustic
  | flow_rate
deriving DecidableEq, Repr

/-- One row of the generated DataFrame: columns `Time`, `Sensor ID`, `Value`,
`Status` and (corrosion only) `Type`.  `ctype` embeds the `Type` column,
`none` when the column is absent. -/
structure Reading where
  time : ℚ
  sensorId : Option ℤ
  value : ℚ
  status : String
  ctype : Option String
deriving DecidableEq, Repr

/-- Run-time failure of the Python function: `UnboundLocalError` on the named
local variable. -/
inductive PyError where
  | unboundLocal (name : String)
deriving DecidableEq, Repr

/-- The per-category status classification, one clause per `np.where` chain of
`src/main.py` (lines 46, 58, 68, 81) and the `flow_rate` conditional
expression (line 91).  Python float literals `0.1`, `0.4` are the exact
rationals `1/10`, `2/5`. -/
def classify : Category → ℚ → String
  | .corrosion, v => if v < 1/10 then "Good" else if v < 2/5 then "Concern" else "Malfunction"
  | .pressure, v => if v < 80 then "Good" else if v < 95 then "Concern" else "Malfunction"
  | .temperature, v =>
      if -20 < v ∧ v < 120 then "Good"
      else if -40 < v ∧ v < 140 then "Concern" else "Malfunction"
  | .acoustic, v =>
      if 60 ≤ v ∧ v ≤ 90 then "Good"
      else if 50 ≤ v ∧ v ≤ 100 then "Concern" else "Malfunction"
  | .flow_rate, v =>
      if 100 < v ∧ v < 900 then "Good"
      else if 50 < v ∧ v < 950 then "Concern" else "Malfunction"

/-- One draw of `np.random.uniform(lo, hi)` from the unit entropy `u`. -/
def uniformDraw (lo hi u : ℚ) : ℚ := lo + u * (hi - lo)

/-- The corrosion-mechanism tags of `np.random.choice` (line 47). -/
def corrosionTypes : List String := ["Uniform", "Pitting", "Galvanic", "Crevice"]

/-- One draw of `np.random.choice(corrosionTypes)` from the index entropy `t`. -/
def chooseTag (t : ℕ) : String :=
  corrosionTypes.get ⟨t % 4, Nat.mod_lt t (by norm_num)⟩

/-- The rows a DataFrame-building branch produces: one `Reading` per index
`k < n` of the `time_range`. -/
def seriesRows (n : ℕ) (mk : ℕ → Reading) : List Reading :=
  (List.range n).map mk

/-- Embedding of `generate_sensor_data` (src/main.py lines 22–95).

`time_range` has `hours*60/interval_minutes + 1` points (floor division), the
`k`-th being `now - 60*hours + k*interval_minutes`; each branch builds one row
per point, pairing the `k`-th time with the `k`-th value draw.  The `Status`
column is the branch's `np.where` chain, i.e. `classify` at this category.
Only the corrosion branch adds a `Type` column.  The `flow_rate` branch
executes `sensor_data.append(...)` and an unrecognized category reaches
`return sensor_data`; both read the unassigned local `sensor_data` and raise
`UnboundLocalError`. -/
def generate_sensor_data (sensor_type : String) (hours : ℕ) (interval_minutes : ℕ)
    (sensor_id : Option ℤ) (now : ℚ) (u : ℕ → ℚ) (tg : ℕ → ℕ) :
    Except PyError (List Reading) :=
  let n := hours * 60 / interval_minutes + 1
  let time : ℕ → ℚ := fun k => now - hours * 60 + k * interval_minutes
  if sensor_type = "corrosion" then
    .ok (seriesRows n (fun k =>
      let v := uniformDraw 0 1 (u k)
      ⟨time k, sensor_id, v, classify .corrosion v, some (chooseTag (tg k))⟩))
  else if sensor_type = "pressure" then
    .ok (seriesRows n (fun k =>
      let v := uniformDraw 0 100 (u k)
      ⟨time k, sensor_id, v, classify .pressure v, none⟩))
  else if sensor_type = "temperature" then
    .ok (seriesRows n (fun k =>
      let v := uniformDraw (-50) 150 (u k)
      ⟨time k, sensor_id, v, classify .temperature v, none⟩))
  else if sensor_type = "acoustic" then
    .ok (seriesRows n (fun k =>
      let v := uniformDraw 40 120 (u k)
      ⟨time k, sensor_id, v, classify .acoustic v, none⟩))
  else if sensor_type = "flow_rate" then
    .error (.unboundLocal "sensor_data")
  else
    .error (.unboundLocal "sensor_data")

/-- The rows of a successful generation (`[]` on failure). -/
def rowsOf : Except PyError (List Reading) → List Reading
  | .ok rows => rows
  | .error _ => []

/-- The four categories whose branch returns a DataFrame, with their
category tag and uniform draw range `(lo, hi)`. -/
def workingCategories : List (String × Category × ℚ × ℚ) :=
  [("corrosion", .corrosion, 0, 1),
   ("pressure", .pressure, 0, 100),
   ("temperature", .temperature, -50, 150),
   ("acoustic", .acoustic, 40, 120)]

/-- The shape the generator gives a series requested for `H` hours at `I`
minutes against clock `now`: `⌊60H/I⌋ + 1` rows, strictly increasing
timestamps spaced exactly `I` minutes, first timestamp `now - 60H`, last
timestamp `now - (60H mod I)` (so `now` itself exactly when `I ∣ 60H`). -/
def SeriesShape (res : Except PyError (List Reading)) (H I : ℕ) (now : ℚ) : Prop :=
  (rowsOf res).length = H * 60 / I + 1 ∧
  ((rowsOf res).map Reading.time).Pairwise (· < ·) ∧
  (∀ k x y, (rowsOf res).get? k = some x → (rowsOf res).get? (k + 1) = some y →
    y.time = x.time + I) ∧
  ((rowsOf res).map Reading.time).head? = some (now - H * 60) ∧
  ((rowsOf res).map Reading.time).getLast? = some (now - ((H * 60 % I : ℕ) : ℚ))

/-- The concatenation the bar-chart callbacks build:
`pd.concat([generate_sensor_data(cat, hours=1, interval_minutes=10, sensor_id=i)
for i in range(10)])`, each invocation with its own clock and entropy. -/
def dashboardRows (cat : String) (nows : ℕ → ℚ) (us : ℕ → ℕ → ℚ)
    (tgs : ℕ → ℕ → ℕ) : List Reading :=
  (List.range 10).flatMap (fun j =>
    rowsOf (generate_sensor_data cat 1 10 (some (j : ℤ)) (nows j) (us j) (tgs j)))

/-- `df.groupby('Sensor ID').last()` at one key: the last row of the group of
rows whose `Sensor ID` equals `i`, in concatenation order. -/
def lastPerId (rows : List Reading) (i : ℤ) : Option Reading :=
  (rows.filter (fun r => decide (r.sensorId = some i))).getLast?

/-- On each working category, `generate_sensor_data` returns the rows built
from the time range and the entropy streams. -/
lemma generate_spec (cat : String) (c : Category) (lo hi : ℚ)
    (hcat : (cat, c, lo, hi) ∈ workingCategories)
    (H I : ℕ) (sid : Option ℤ) (now : ℚ) (u : ℕ → ℚ) (tg : ℕ → ℕ) :
    generate_sensor_data cat H I sid now u tg =
      .ok (seriesRows (H * 60 / I + 1) (fun k =>
        { time := now - H * 60 + k * I
          sensorId := sid
          value := uniformDraw lo hi (u k)
          status := classify c (uniformDraw lo hi (u k))
          ctype := if c = Category.corrosion then some (chooseTag (tg k)) else none })) := by
  simp only [workingCategories, List.mem_cons, List.not_mem_nil, or_false,
    Prod.mk.injEq] at hcat
  rcases hcat with ⟨rfl, rfl, rfl, rfl⟩ | ⟨rfl, rfl, rfl, rfl⟩ |
    ⟨rfl, rfl, rfl, rfl⟩ | ⟨rfl, rfl, rfl, rfl⟩ <;> rfl

lemma seriesRows_length (n : ℕ) (mk : ℕ → Reading) : (seriesRows n mk).length = n := by
  simp [seriesRows]

lemma mem_seriesRows {r : Reading} {n : ℕ} {mk : ℕ → Reading} :
    r ∈ seriesRows n mk ↔ ∃ k, k < n ∧ mk k = r := by
  simp [seriesRows]

lemma seriesRows_get (n : ℕ) (mk : ℕ → Reading) (k : ℕ) (hk : k < (seriesRows n mk).length) :
    (seriesRows n mk).get ⟨k, hk⟩ = mk k := by
  simp [seriesRows]

lemma seriesRows_get? (n : ℕ) (mk : ℕ → Reading) (k : ℕ) (h : k < n) :
    (seriesRows n mk).get? k = some (mk k) := by
  simp [seriesRows, List.get?_eq_getElem?, List.getElem?_map, List.getElem?_range h]

lemma seriesRows_get?_none (n : ℕ) (mk : ℕ → Reading) (k : ℕ) (h : n ≤ k) :
    (seriesRows n mk).get? k = none := by
  rw [List.get?_eq_none]
  simpa [seriesRows] using h

lemma seriesRows_map_time (n : ℕ) (mk : ℕ → Reading) :
    (seriesRows n mk).map Reading.time = (List.range n).map (fun k => (mk k).time) := by
  simp [seriesRows, List.map_map]

lemma head?_range_map {α : Type} (n : ℕ) (f : ℕ → α) :
    ((List.range (n + 1)).map f).head? = some (f 0) := by
  rw [List.range_succ_eq_map]; simp

lemma getLast?_range_map {α : Type} (n : ℕ) (f : ℕ → α) :
    ((List.range (n + 1)).map f).getLast? = some (f n) := by
  rw [List.range_succ]; simp

lemma get_range_map {α : Type} (n : ℕ) (f : ℕ → α) (k : ℕ)
    (h : k < ((List.range n).map f).length) :
    ((List.range n).map f).get ⟨k, h⟩ = f k := by
  simp

/-- C1 (amended): for every working category, `H` hours and interval
`I ≥ 1` minutes, the series has `⌊60H/I⌋ + 1` readings with strictly
increasing timestamps spaced exactly `I` minutes, the first being
`now - H` hours; the last is `now - (60H mod I)` minutes, which equals `now`
exactly when `I` divides `60H`. -/
theorem series_shape (cat : String) (c : Category) (lo hi : ℚ)
    (hcat : (cat, c, lo, hi) ∈ workingCategories)
    (H I : ℕ) (hI : 1 ≤ I) (sid : Option ℤ) (now : ℚ) (u : ℕ → ℚ) (tg : ℕ → ℕ) :
    SeriesShape (generate_sensor_data cat H I sid now u tg) H I now := by
  have hI' : (0 : ℚ) < I := by exact_mod_cast Nat.lt_of_lt_of_le Nat.zero_lt_one hI
  simp only [SeriesShape, generate_spec cat c lo hi hcat H I sid now u tg, rowsOf]
  refine ⟨seriesRows_length _ _, ?_, ?_, ?_, ?_⟩
  · rw [seriesRows_map_time]
    refine List.Pairwise.map _ ?_ (List.pairwise_lt_range _)
    intro a b hab
    simp only
    have hab' : (a : ℚ) < b := by exact_mod_cast hab
    have := mul_lt_mul_of_pos_right hab' hI'
    linarith
  · intro k x y hx hy
    have hk1 : k + 1 < H * 60 / I + 1 := by
      by_contra hcon
      rw [seriesRows_get?_none _ _ _ (Nat.le_of_not_lt hcon)] at hy
      exact Option.noConfusion hy
    rw [seriesRows_get? _ _ _ hk1] at hy
    rw [seriesRows_get? _ _ _ (Nat.lt_of_succ_lt hk1)] at hx
    obtain rfl : x = _ := (Option.some.injEq _ _ ▸ hx.symm)
    obtain rfl : y = _ := (Option.some.injEq _ _ ▸ hy.symm)
    simp only
    push_cast
    ring
  · rw [seriesRows_map_time, head?_range_map]
    norm_num
  · rw [seriesRows_map_time, getLast?_range_map]
    have hdm := Nat.div_add_mod (H * 60) I
    congr 1
    simp only
    have : ((I * (H * 60 / I) + H * 60 % I : ℕ) : ℚ) = ((H * 60 : ℕ) : ℚ) := by
      exact_mod_cast congrArg (fun n : ℕ => (n : ℚ)) hdm
    push_cast at this ⊢
    linarith

theorem series_shape_witness :
    (("pressure", Category.pressure, (0 : ℚ), (100 : ℚ)) ∈ workingCategories) ∧ 1 ≤ 7 ∧
    SeriesShape (generate_sensor_data "pressure" 1 7 (some 3) 0 (fun _ => 0) (fun _ => 0)) 1 7 0 :=
  ⟨by decide, by decide,
    series_shape "pressure" .pressure 0 100 (by decide) 1 7 (by decide) (some 3) 0
      (fun _ => 0) (fun _ => 0)⟩

/-- C1 counterexample: for `hours = 1`, `interval_minutes = 7` (category
`pressure`, clock `now = 0`) the last timestamp is `-4` minutes, not `now`:
`pd.date_range` stops at the last multiple of the interval inside the window,
so the right end of `[now - duration, now]` is reached only when the interval
divides the duration. -/
theorem last_timestamp_ne_now :
    ((rowsOf (generate_sensor_data "pressure" 1 7 (some 3) 0 (fun _ => 0) (fun _ => 0))).map
      Reading.time).getLast? = some (-4) ∧ ((-4 : ℚ) ≠ (0 : ℚ)) := by
  constructor
  · rw [generate_spec "pressure" .pressure 0 100 (by decide) 1 7 (some 3) 0
      (fun _ => 0) (fun _ => 0)]
    simp only [rowsOf]
    rw [seriesRows_map_time, show (1 * 60 / 7 + 1 : ℕ) = 8 + 1 from rfl, getLast?_range_map]
    norm_num
  · norm_num

/-- C2: for every category the classification returns exactly one of
`Good`, `Concern`, `Malfunction`, and the three bands partition the value
range according to the per-category threshold table of §4.1. -/
theorem classify_partition (v : ℚ) :
    (∀ c : Category, classify c v = "Good" ∨ classify c v = "Concern" ∨
      classify c v = "Malfunction") ∧
    (classify .corrosion v = "Good" ↔ v < 1/10) ∧
    (classify .corrosion v = "Concern" ↔ 1/10 ≤ v ∧ v < 2/5) ∧
    (classify .corrosion v = "Malfunction" ↔ 2/5 ≤ v) ∧
    (classify .pressure v = "Good" ↔ v < 80) ∧
    (classify .pressure v = "Concern" ↔ 80 ≤ v ∧ v < 95) ∧
    (classify .pressure v = "Malfunction" ↔ 95 ≤ v) ∧
    (classify .temperature v = "Good" ↔ -20 < v ∧ v < 120) ∧
    (classify .temperature v = "Concern" ↔ (-40 < v ∧ v < 140) ∧ ¬(-20 < v ∧ v < 120)) ∧
    (classify .temperature v = "Malfunction" ↔ ¬(-40 < v ∧ v < 140)) ∧
    (classify .acoustic v = "Good" ↔ 60 ≤ v ∧ v ≤ 90) ∧
    (classify .acoustic v = "Concern" ↔ (50 ≤ v ∧ v ≤ 100) ∧ ¬(60 ≤ v ∧ v ≤ 90)) ∧
    (classify .acoustic v = "Malfunction" ↔ ¬(50 ≤ v ∧ v ≤ 100)) ∧
    (classify .flow_rate v = "Good" ↔ 100 < v ∧ v < 900) ∧
    (classify .flow_rate v = "Concern" ↔ (50 < v ∧ v < 950) ∧ ¬(100 < v ∧ v < 900)) ∧
    (classify .flow_rate v = "Malfunction" ↔ ¬(50 < v ∧ v < 950)) := by
  have hone : ∀ c : Category, classify c v = "Good" ∨ classify c v = "Concern" ∨
      classify c v = "Malfunction" := by
    intro c
    cases c <;> (simp only [classify]; split_ifs <;> simp)
  refine ⟨hone, ?_, ?_, ?_, ?_, ?_, ?_, ?_, ?_, ?_, ?_, ?_, ?_, ?_, ?_, ?_⟩ <;>
    (simp only [classify]; split_ifs <;> simp_all <;> (try constructor) <;> linarith)

/-- C3: calling the generator with a category outside the five recognized
ones fails (reading the never-assigned local `sensor_data` at the final
`return`), the error propagating to the caller; no rows are returned. -/
theorem invalid_category_errors (cat : String)
    (hcat : cat ∉ ["corrosion", "pressure", "temperature", "acoustic", "flow_rate"])
    (H I : ℕ) (sid : Option ℤ) (now : ℚ) (u : ℕ → ℚ) (tg : ℕ → ℕ) :
    generate_sensor_data cat H I sid now u tg = .error (.unboundLocal "sensor_data") := by
  simp only [List.mem_cons, List.not_mem_nil, or_false, not_or] at hcat
  obtain ⟨h1, h2, h3, h4, h5⟩ := hcat
  simp only [generate_sensor_data, if_neg h1, if_neg h2, if_neg h3, if_neg h4, if_neg h5]

theorem invalid_category_errors_witness :
    ("vibration" ∉ ["corrosion", "pressure", "temperature", "acoustic", "flow_rate"]) ∧
    generate_sensor_data "vibration" 24 10 (some 0) 0 (fun _ => 0) (fun _ => 0) =
      .error (.unboundLocal "sensor_data") :=
  ⟨by decide, invalid_category_errors "vibration" (by decide) 24 10 (some 0) 0
    (fun _ => 0) (fun _ => 0)⟩

/-- C4: the `flow_rate` branch never returns a populated Series: whatever the
arguments, it fails on the out-of-scope `sensor_data` before producing any
reading. -/
theorem flow_rate_never_populates (H I : ℕ) (sid : Option ℤ) (now : ℚ)
    (u : ℕ → ℚ) (tg : ℕ → ℕ) :
    generate_sensor_data "flow_rate" H I sid now u tg = .error (.unboundLocal "sensor_data") ∧
    rowsOf (generate_sensor_data "flow_rate" H I sid now u tg) = [] := by
  constructor <;> rfl

/-- C5: the Status of every generated reading is the pure threshold function
of (category, value) alone: every row satisfies `status = classify c value`,
hence any two readings of the same category with equal values have equal
status, across positions, timestamps, identities and invocations. -/
theorem status_pure (cat : String) (c : Category) (lo hi : ℚ)
    (hcat : (cat, c, lo, hi) ∈ workingCategories)
    (H I : ℕ) (sid : Option ℤ) (now : ℚ) (u : ℕ → ℚ) (tg : ℕ → ℕ) :
    (∀ r ∈ rowsOf (generate_sensor_data cat H I sid now u tg),
      r.status = classify c r.value) ∧
    (∀ (H2 I2 : ℕ) (sid2 : Option ℤ) (now2 : ℚ) (u2 : ℕ → ℚ) (tg2 : ℕ → ℕ),
      ∀ r ∈ rowsOf (generate_sensor_data cat H I sid now u tg),
      ∀ r2 ∈ rowsOf (generate_sensor_data cat H2 I2 sid2 now2 u2 tg2),
        r.value = r2.value → r.status = r2.status) := by
  have key : ∀ (H I : ℕ) (sid : Option ℤ) (now : ℚ) (u : ℕ → ℚ) (tg : ℕ → ℕ),
      ∀ r ∈ rowsOf (generate_sensor_data cat H I sid now u tg),
      r.status = classify c r.value := by
    intro H I sid now u tg r hr
    rw [generate_spec cat c lo hi hcat] at hr
    simp only [rowsOf] at hr
    obtain ⟨k, hk, rfl⟩ := mem_seriesRows.mp hr
    rfl
  refine ⟨key H I sid now u tg, ?_⟩
  intro H2 I2 sid2 now2 u2 tg2 r hr r2 hr2 hv
  rw [key H I sid now u tg r hr, key H2 I2 sid2 now2 u2 tg2 r2 hr2, hv]

theorem status_pure_witness :
    (("corrosion", Category.corrosion, (0 : ℚ), (1 : ℚ)) ∈ workingCategories) ∧
    ((∀ r ∈ rowsOf (generate_sensor_data "corrosion" 1 10 (some 0) 0 (fun _ => 0) (fun _ => 0)),
      r.status = classify Category.corrosion r.value) ∧
    (∀ (H2 I2 : ℕ) (sid2 : Option ℤ) (now2 : ℚ) (u2 : ℕ → ℚ) (tg2 : ℕ → ℕ),
      ∀ r ∈ rowsOf (generate_sensor_data "corrosion" 1 10 (some 0) 0 (fun _ => 0) (fun _ => 0)),
      ∀ r2 ∈ rowsOf (generate_sensor_data "corrosion" H2 I2 sid2 now2 u2 tg2),
        r.value = r2.value → r.status = r2.status)) :=
  ⟨by decide, status_pure "corrosion" .corrosion 0 1 (by decide) 1 10 (some 0) 0
    (fun _ => 0) (fun _ => 0)⟩

/-- C6: every generated value lies in its category's range: corrosion in
`[0,1]`, pressure in `[0,100]`, temperature in `[-50,150]`, acoustic in
`[40,120]`, given only the RNG contract that unit draws lie in `[0,1)`. -/
theorem values_in_range (cat : String) (c : Category) (lo hi : ℚ)
    (hcat : (cat, c, lo, hi) ∈ workingCategories)
    (H I : ℕ) (sid : Option ℤ) (now : ℚ) (u : ℕ → ℚ) (tg : ℕ → ℕ)
    (hu : ∀ k, 0 ≤ u k ∧ u k < 1) :
    ∀ r ∈ rowsOf (generate_sensor_data cat H I sid now u tg),
      lo ≤ r.value ∧ r.value ≤ hi := by
  intro r hr
  rw [generate_spec cat c lo hi hcat] at hr
  simp only [rowsOf] at hr
  obtain ⟨k, hk, rfl⟩ := mem_seriesRows.mp hr
  have h0 := (hu k).1
  have h1 := (hu k).2
  have hlh : lo < hi := by
    simp only [workingCategories, List.mem_cons, List.not_mem_nil, or_false,
      Prod.mk.injEq] at hcat
    rcases hcat with ⟨-, -, rfl, rfl⟩ | ⟨-, -, rfl, rfl⟩ | ⟨-, -, rfl, rfl⟩ |
      ⟨-, -, rfl, rfl⟩ <;> norm_num
  simp only [uniformDraw]
  have h2 : 0 ≤ u k * (hi - lo) := mul_nonneg h0 (by linarith)
  have h3 : u k * (hi - lo) ≤ 1 * (hi - lo) :=
    mul_le_mul_of_nonneg_right (le_of_lt h1) (by linarith)
  constructor <;> linarith

theorem values_in_range_witness :
    (("pressure", Category.pressure, (0 : ℚ), (100 : ℚ)) ∈ workingCategories) ∧
    (∀ _k : ℕ, 0 ≤ (1 : ℚ)/2 ∧ (1 : ℚ)/2 < 1) ∧
    (∀ r ∈ rowsOf (generate_sensor_data "pressure" 1 10 (some 3) 0
        (fun _ => 1/2) (fun _ => 0)),
      0 ≤ r.value ∧ r.value ≤ 100) :=
  ⟨by decide, by norm_num,
    values_in_range "pressure" .pressure 0 100 (by decide) 1 10 (some 3) 0
      (fun _ => 1/2) (fun _ => 0) (by norm_num)⟩

/-- C7: a reading carries a corrosion-mechanism `Type` tag exactly when its
category is corrosion, and every tag is one of
`Uniform`, `Pitting`, `Galvanic`, `Crevice`; the other categories' rows have
no `Type` column. -/
theorem ctype_iff_corrosion :
    (∀ (H I : ℕ) (sid : Option ℤ) (now : ℚ) (u : ℕ → ℚ) (tg : ℕ → ℕ),
      ∀ r ∈ rowsOf (generate_sensor_data "corrosion" H I sid now u tg),
        ∃ t, r.ctype = some t ∧ t ∈ ["Uniform", "Pitting", "Galvanic", "Crevice"]) ∧
    (∀ cat ∈ ["pressure", "temperature", "acoustic"],
      ∀ (H I : ℕ) (sid : Option ℤ) (now : ℚ) (u : ℕ → ℚ) (tg : ℕ → ℕ),
      ∀ r ∈ rowsOf (generate_sensor_data cat H I sid now u tg), r.ctype = none) := by
  constructor
  · intro H I sid now u tg r hr
    rw [generate_spec "corrosion" .corrosion 0 1 (by decide)] at hr
    simp only [rowsOf] at hr
    obtain ⟨k, hk, rfl⟩ := mem_seriesRows.mp hr
    refine ⟨chooseTag (tg k), rfl, ?_⟩
    have hmem : chooseTag (tg k) ∈ corrosionTypes := List.get_mem _ _ _
    simpa [corrosionTypes] using hmem
  · intro cat hcat H I sid now u tg r hr
    simp only [List.mem_cons, List.not_mem_nil, or_false] at hcat
    rcases hcat with rfl | rfl | rfl
    · rw [generate_spec "pressure" .pressure 0 100 (by decide)] at hr
      simp only [rowsOf] at hr
      obtain ⟨k, hk, rfl⟩ := mem_seriesRows.mp hr
      rfl
    · rw [generate_spec "temperature" .temperature (-50) 150 (by decide)] at hr
      simp only [rowsOf] at hr
      obtain ⟨k, hk, rfl⟩ := mem_seriesRows.mp hr
      rfl
    · rw [generate_spec "acoustic" .acoustic 40 120 (by decide)] at hr
      simp only [rowsOf] at hr
      obtain ⟨k, hk, rfl⟩ := mem_seriesRows.mp hr
      rfl

theorem ctype_iff_corrosion_witness :
    ∃ t, (Reading.ctype
        { time := 0 - 0 * 60 + 0 * 1, sensorId := some 0,
          value := uniformDraw 0 1 0,
          status := classify Category.corrosion (uniformDraw 0 1 0),
          ctype := some (chooseTag 0) }) = some t ∧
      t ∈ ["Uniform", "Pitting", "Galvanic", "Crevice"] :=
  ctype_iff_corrosion.1 0 1 (some 0) 0 (fun _ => 0) (fun _ => 0) _
    (by
      rw [generate_spec "corrosion" .corrosion 0 1 (by decide)]
      simp only [rowsOf]
      exact mem_seriesRows.mpr ⟨0, by norm_num, rfl⟩)

lemma sensorId_of_mem (cat : String) (c : Category) (lo hi : ℚ)
    (hcat : (cat, c, lo, hi) ∈ workingCategories)
    (H I : ℕ) (sid : Option ℤ) (now : ℚ) (u : ℕ → ℚ) (tg : ℕ → ℕ) :
    ∀ r ∈ rowsOf (generate_sensor_data cat H I sid now u tg), r.sensorId = sid := by
  intro r hr
  rw [generate_spec cat c lo hi hcat] at hr
  simp only [rowsOf] at hr
  obtain ⟨k, hk, rfl⟩ := mem_seriesRows.mp hr
  rfl

/-- C9: the `Sensor ID` column replicates the `sensor_id` argument verbatim
into every row, including when it is `None`. -/
theorem sensorId_verbatim (cat : String) (c : Category) (lo hi : ℚ)
    (hcat : (cat, c, lo, hi) ∈ workingCategories)
    (H I : ℕ) (sid : Option ℤ) (now : ℚ) (u : ℕ → ℚ) (tg : ℕ → ℕ) :
    ∀ r ∈ rowsOf (generate_sensor_data cat H I sid now u tg), r.sensorId = sid :=
  sensorId_of_mem cat c lo hi hcat H I sid now u tg

theorem sensorId_verbatim_witness :
    (("temperature", Category.temperature, (-50 : ℚ), (150 : ℚ)) ∈ workingCategories) ∧
    (∀ r ∈ rowsOf (generate_sensor_data "temperature" 1 10 none 0
        (fun _ => 0) (fun _ => 0)),
      r.sensorId = none) :=
  ⟨by decide, sensorId_verbatim "temperature" .temperature (-50) 150 (by decide)
    1 10 none 0 (fun _ => 0) (fun _ => 0)⟩

/-- C10: generation is total on the four working categories: for any hours,
any interval ≥ 1 and any sensor id (including `None`) the call returns a
DataFrame, never an error. -/
theorem generate_total (cat : String) (c : Category) (lo hi : ℚ)
    (hcat : (cat, c, lo, hi) ∈ workingCategories)
    (H I : ℕ) (_hI : 1 ≤ I) (sid : Option ℤ) (now : ℚ) (u : ℕ → ℚ) (tg : ℕ → ℕ) :
    ∃ rows, generate_sensor_data cat H I sid now u tg = .ok rows :=
  ⟨_, generate_spec cat c lo hi hcat H I sid now u tg⟩

theorem generate_total_witness :
    (("acoustic", Category.acoustic, (40 : ℚ), (120 : ℚ)) ∈ workingCategories) ∧ 1 ≤ 10 ∧
    ∃ rows, generate_sensor_data "acoustic" 24 10 (some 5) 0 (fun _ => 0) (fun _ => 0) =
      .ok rows :=
  ⟨by decide, by decide,
    generate_total "acoustic" .acoustic 40 120 (by decide) 24 10 (by decide)
      (some 5) 0 (fun _ => 0) (fun _ => 0)⟩

lemma seriesRows_getLast? (n : ℕ) (mk : ℕ → Reading) :
    (seriesRows (n + 1) mk).getLast? = some (mk n) :=
  getLast?_range_map n mk

lemma flatMap_range_single {n i : ℕ} (hi : i < n) (g : ℕ → List Reading)
    (hnil : ∀ j, j < n → j ≠ i → g j = []) : (List.range n).flatMap g = g i := by
  induction n with
  | zero => omega
  | succ n ih =>
    rw [List.range_succ, List.flatMap_append]
    rcases Nat.lt_succ_iff_lt_or_eq.mp hi with h | rfl
    · rw [ih h (fun j hj hne => hnil j (Nat.lt_succ_of_lt hj) hne)]
      have hn : g n = [] := hnil n (Nat.lt_succ_self n) (by omega)
      simp [hn]
    · have hpre : (List.range i).flatMap g = [] := by
        rw [List.flatMap_eq_nil_iff]
        intro x hx
        exact hnil x (Nat.lt_succ_of_lt (List.mem_range.mp hx))
          (Nat.ne_of_lt (List.mem_range.mp hx))
      simp [hpre]

lemma dashboard_filter (cat : String) (c : Category) (lo hi : ℚ)
    (hcat : (cat, c, lo, hi) ∈ workingCategories)
    (nows : ℕ → ℚ) (us : ℕ → ℕ → ℚ) (tgs : ℕ → ℕ → ℕ) (i : ℕ) (hi10 : i < 10) :
    (dashboardRows cat nows us tgs).filter (fun r => decide (r.sensorId = some (i : ℤ))) =
      rowsOf (generate_sensor_data cat 1 10 (some (i : ℤ)) (nows i) (us i) (tgs i)) := by
  rw [dashboardRows, List.filter_flatMap]
  rw [flatMap_range_single hi10]
  · rw [List.filter_eq_self]
    intro r hr
    have hs := sensorId_of_mem cat c lo hi hcat 1 10 (some (i : ℤ))
      (nows i) (us i) (tgs i) r hr
    simp [hs]
  · intro j hj hne
    rw [List.filter_eq_nil_iff]
    intro r hr
    have hs := sensorId_of_mem cat c lo hi hcat 1 10 (some (j : ℤ))
      (nows j) (us j) (tgs j) r hr
    simp only [hs, decide_eq_true_eq, Option.some.injEq, Nat.cast_inj]
    exact hne

/-- C8: grouping the concatenated ten per-identity 1-hour series by
`Sensor ID` and taking the last row of each group yields exactly one reading
per requested identity `i < 10`, and that reading is the chronologically last
one of identity `i`'s series: its timestamp strictly dominates every other
reading of that identity. -/
theorem lastPerId_is_max (cat : String) (c : Category) (lo hi : ℚ)
    (hcat : (cat, c, lo, hi) ∈ workingCategories)
    (nows : ℕ → ℚ) (us : ℕ → ℕ → ℚ) (tgs : ℕ → ℕ → ℕ) (i : ℕ) (hi10 : i < 10) :
    ∃ r, lastPerId (dashboardRows cat nows us tgs) (i : ℤ) = some r ∧
      r ∈ dashboardRows cat nows us tgs ∧
      r.sensorId = some (i : ℤ) ∧
      ∀ r2 ∈ dashboardRows cat nows us tgs, r2.sensorId = some (i : ℤ) →
        r2.time ≤ r.time ∧ (r2 ≠ r → r2.time < r.time) := by
  have hL : rowsOf (generate_sensor_data cat 1 10 (some (i : ℤ)) (nows i) (us i) (tgs i)) =
      seriesRows (6 + 1) (fun k =>
        { time := nows i - (1 : ℕ) * 60 + (k : ℕ) * (10 : ℕ)
          sensorId := some (i : ℤ)
          value := uniformDraw lo hi (us i k)
          status := classify c (uniformDraw lo hi (us i k))
          ctype := if c = Category.corrosion then some (chooseTag (tgs i k)) else none }) := by
    rw [generate_spec cat c lo hi hcat]
    rfl
  have hlast : lastPerId (dashboardRows cat nows us tgs) (i : ℤ) =
      some { time := nows i - ((1 : ℕ) : ℚ) * 60 + ((6 : ℕ) : ℚ) * ((10 : ℕ) : ℚ)
             sensorId := some (i : ℤ)
             value := uniformDraw lo hi (us i 6)
             status := classify c (uniformDraw lo hi (us i 6))
             ctype := if c = Category.corrosion then some (chooseTag (tgs i 6))
               else none } := by
    rw [lastPerId, dashboard_filter cat c lo hi hcat nows us tgs i hi10, hL,
      seriesRows_getLast?]
  refine ⟨_, hlast, ?_, rfl, ?_⟩
  · rw [dashboardRows]
    refine List.mem_flatMap.mpr ⟨i, List.mem_range.mpr hi10, ?_⟩
    rw [hL]
    exact mem_seriesRows.mpr ⟨6, by norm_num, rfl⟩
  · intro r2 hr2 hr2id
    rw [dashboardRows] at hr2
    obtain ⟨j, hj, hr2j⟩ := List.mem_flatMap.mp hr2
    have hj10 := List.mem_range.mp hj
    have hsid := sensorId_of_mem cat c lo hi hcat 1 10 (some (j : ℤ))
      (nows j) (us j) (tgs j) r2 hr2j
    have hji : j = i := by
      rw [hsid] at hr2id
      exact_mod_cast Option.some_injective ℤ hr2id
    rw [hji] at hr2j
    rw [hL] at hr2j
    obtain ⟨k, hk7, rfl⟩ := mem_seriesRows.mp hr2j
    constructor
    · have hk6 : (k : ℚ) ≤ 6 := by exact_mod_cast Nat.lt_succ_iff.mp hk7
      show nows i - (1 : ℕ) * 60 + (k : ℕ) * (10 : ℕ) ≤
        nows i - (1 : ℕ) * 60 + ((6 : ℕ) : ℚ) * (10 : ℕ)
      push_cast
      linarith
    · intro hne
      have hkne : k ≠ 6 := fun h => hne (by rw [h])
      have hklt : (k : ℚ) < 6 := by
        exact_mod_cast (by omega : k < 6)
      show nows i - (1 : ℕ) * 60 + (k : ℕ) * (10 : ℕ) <
        nows i - (1 : ℕ) * 60 + ((6 : ℕ) : ℚ) * (10 : ℕ)
      push_cast
      linarith

theorem lastPerId_is_max_witness :
    (("temperature", Category.temperature, (-50 : ℚ), (150 : ℚ)) ∈ workingCategories) ∧
    0 < 10 ∧
    (∃ r, lastPerId (dashboardRows "temperature" (fun _ => 0) (fun _ _ => 0)
        (fun _ _ => 0)) ((0 : ℕ) : ℤ) = some r ∧
      r ∈ dashboardRows "temperature" (fun _ => 0) (fun _ _ => 0) (fun _ _ => 0) ∧
      r.sensorId = some ((0 : ℕ) : ℤ) ∧
      ∀ r2 ∈ dashboardRows "temperature" (fun _ => 0) (fun _ _ => 0) (fun _ _ => 0),
        r2.sensorId = some ((0 : ℕ) : ℤ) →
        r2.time ≤ r.time ∧ (r2 ≠ r → r2.time < r.time)) :=
  ⟨by decide, by decide,
    lastPerId_is_max "temperature" .temperature (-50) 150 (by decide)
      (fun _ => 0) (fun _ _ => 0) (fun _ _ => 0) 0 (by decide)⟩

end RigMonitor
